import Mathlib

/-!
Shallow embedding of the mongo-crud repository (package `mongocrud`):
`collection.go` (DatabaseCollection with NewItem / ItemExists / GetItem /
UpdateItem / DeleteItem) and the storage bootstrap (`NewStorage`).

The store client (the `mongoCollection` interface) is modelled as a record
of response functions; each operation returns its result together with the
list of store calls it performed, so that "the store is not invoked" and
"the filter passed to the store" are provable statements.  Machine-level
details that no claim touches (wall-clock expiry of deadlines, the wire
protocol, logging output) are abstracted: contexts are modelled as the
syntactic deadline tree Go builds, and logging is dropped (it returns
nothing to the caller).
-/

namespace MongoCrud

/-- A 12-byte Mongo `primitive.ObjectID`, modelled as its list of bytes. -/
abbrev ObjectID := List Nat

/-- `primitive.NilObjectID`: the all-zero identifier. -/
def NilObjectID : ObjectID := List.replicate 12 0

/-- One lowercase hex digit, as Go's `encoding/hex` emits. -/
def hexDigitChar (n : Nat) : Char :=
  if n < 10 then Char.ofNat (48 + n) else Char.ofNat (87 + n)

/-- The two hex characters of one byte. -/
def byteHexChars (b : Nat) : List Char :=
  [hexDigitChar (b / 16 % 16), hexDigitChar (b % 16)]

/-- `ObjectID.Hex()`: lowercase hex encoding of the 12 bytes. -/
def ObjectID.hex (o : ObjectID) : String :=
  String.mk (o.foldr (fun b acc => byteHexChars b ++ acc) [])

/-- Value of one hex character (both cases accepted, as `hex.DecodeString`). -/
def hexCharVal (c : Char) : Option Nat :=
  let n := c.toNat
  if 48 ≤ n ∧ n ≤ 57 then some (n - 48)
  else if 97 ≤ n ∧ n ≤ 102 then some (n - 87)
  else if 65 ≤ n ∧ n ≤ 70 then some (n - 55)
  else none

/-- Decode a character list two hex digits at a time, as `hex.DecodeString`. -/
def hexPairs : List Char → Option (List Nat)
  | [] => some []
  | [_] => none
  | c1 :: c2 :: rest =>
    match hexCharVal c1, hexCharVal c2, hexPairs rest with
    | some h, some l, some bs => some ((16 * h + l) :: bs)
    | _, _, _ => none

/-- `primitive.ObjectIDFromHex`: a 24-character hex string decodes to the
12-byte identifier; anything else fails (`none`).  The Go function returns
`NilObjectID` together with the error in the failure case; call sites that
discard the error therefore observe `(ObjectIDFromHex v).getD NilObjectID`. -/
def ObjectIDFromHex (s : String) : Option ObjectID :=
  if s.length = 24 then hexPairs s.data else none

/-- A Go `context.Context`, modelled as the deadline tree the code builds. -/
inductive Ctx where
  | background : Ctx
  | withTimeout (parent : Ctx) (seconds : Nat) : Ctx
deriving DecidableEq

/-- A caller-supplied `interface{}` argument, as `reflect` classifies it:
a pointer to some value, a struct (abstracted to its `ID` field of type
`primitive.ObjectID` plus the remaining data), or any other value. -/
inductive GoValue where
  | ptr (elem : GoValue) : GoValue
  | structVal (id : ObjectID) (rest : String) : GoValue
  | prim (tag : String) : GoValue
deriving DecidableEq

/-- A BSON filter value: either a decoded identifier or a literal string. -/
inductive BsonValue where
  | oid (o : ObjectID) : BsonValue
  | str (s : String) : BsonValue
deriving DecidableEq

/-- A `bson.D` document: ordered key/value pairs. -/
abbrev Filter := List (String × BsonValue)

/-- The sentinel errors declared at the top of collection.go. -/
inductive CrudError where
  | ErrorAlreadyExists : CrudError
  | ErrorInsertFailed : CrudError
  | ErrorGetFailed : CrudError
  | ErrorDeleteFailed : CrudError
  | ErrorUpdateFailed : CrudError
  | ErrorIdBlank : CrudError
  | ErrorValueNotPointer : CrudError
  | ErrorValueNotStruct : CrudError
deriving DecidableEq

/-- A `mongo.SingleResult`: a lazy handle carrying an error (`Err()`)
and, when the error is absent, the matched document. -/
structure SingleResult where
  Err : Option String
  doc : String
deriving DecidableEq

/-- The `mongoCollection` capability-set interface, as response functions:
what the store answers to each call.  `ReplaceOne` answers a matched count
and an error; `DeleteOne` a deleted count and an error; `InsertOne` only an
error (its ack is discarded by the caller with `_`). -/
structure MongoCollection where
  InsertOne : Ctx → GoValue → Option String
  FindOne : Ctx → Filter → SingleResult
  ReplaceOne : Ctx → Filter → GoValue → Nat × Option String
  DeleteOne : Ctx → Filter → Nat × Option String

/-- One store call as it was issued, recorded for the trace. -/
inductive StoreCall where
  | insertOne (ctx : Ctx) (doc : GoValue) : StoreCall
  | findOne (ctx : Ctx) (filter : Filter) : StoreCall
  | replaceOne (ctx : Ctx) (filter : Filter) (doc : GoValue) : StoreCall
  | deleteOne (ctx : Ctx) (filter : Filter) : StoreCall
deriving DecidableEq

/-- `DatabaseCollection`: a name and a store handle. -/
structure DatabaseCollection where
  name : String
  collection : MongoCollection

/-- `ItemExists` (collection.go lines 66-79).  The filter switch is written
out here exactly as the source duplicates it: `"_id", "id"` decode the
value as hex (the decode error is discarded, so a failed decode leaves the
zero identifier), any other key becomes a literal equality filter. -/
def DatabaseCollection.ItemExists (c : DatabaseCollection) (ctx : Ctx)
    (byKey value : String) : Bool × List StoreCall :=
  let filter : Filter :=
    if byKey = "_id" ∨ byKey = "id" then
      [("_id", BsonValue.oid ((ObjectIDFromHex value).getD NilObjectID))]
    else
      [(byKey, BsonValue.str value)]
  let result := c.collection.FindOne ctx filter
  (result.Err.isNone, [StoreCall.findOne ctx filter])

/-- `GetItem` (collection.go lines 81-98), with the same duplicated filter
switch as `ItemExists`; `ErrorGetFailed` when the result carries an error,
the lazy handle otherwise. -/
def DatabaseCollection.GetItem (c : DatabaseCollection) (ctx : Ctx)
    (byKey value : String) :
    (Option SingleResult × Option CrudError) × List StoreCall :=
  let filter : Filter :=
    if byKey = "_id" ∨ byKey = "id" then
      [("_id", BsonValue.oid ((ObjectIDFromHex value).getD NilObjectID))]
    else
      [(byKey, BsonValue.str value)]
  let item := c.collection.FindOne ctx filter
  if item.Err.isSome then
    ((none, some CrudError.ErrorGetFailed), [StoreCall.findOne ctx filter])
  else
    ((some item, none), [StoreCall.findOne ctx filter])

/-- `NewItem` (collection.go lines 42-64): reflection checks (pointer, then
struct, then non-nil `ID`), insert, and on success a re-fetch through
`GetItem` keyed `"id"` with the hex-encoded identifier. -/
def DatabaseCollection.NewItem (c : DatabaseCollection) (ctx : Ctx)
    (i : GoValue) :
    (Option SingleResult × Option CrudError) × List StoreCall :=
  match i with
  | GoValue.ptr tgt =>
    match tgt with
    | GoValue.structVal id _ =>
      if id = NilObjectID then
        ((none, some CrudError.ErrorIdBlank), [])
      else
        match c.collection.InsertOne ctx i with
        | some _ =>
          ((none, some CrudError.ErrorInsertFailed), [StoreCall.insertOne ctx i])
        | none =>
          let fetched := c.GetItem ctx "id" (ObjectID.hex id)
          (fetched.1, StoreCall.insertOne ctx i :: fetched.2)
    | _ => ((none, some CrudError.ErrorValueNotStruct), [])
  | _ => ((none, some CrudError.ErrorValueNotPointer), [])

/-- `UpdateItem` (collection.go lines 100-126): the same reflection checks,
then a replace against the filter `{_id: id}` built directly from the
record's `ID` field, and on success the same re-fetch as `NewItem`. -/
def DatabaseCollection.UpdateItem (c : DatabaseCollection) (ctx : Ctx)
    (i : GoValue) :
    (Option SingleResult × Option CrudError) × List StoreCall :=
  match i with
  | GoValue.ptr tgt =>
    match tgt with
    | GoValue.structVal id _ =>
      if id = NilObjectID then
        ((none, some CrudError.ErrorIdBlank), [])
      else
        let filter : Filter := [("_id", BsonValue.oid id)]
        match (c.collection.ReplaceOne ctx filter i).2 with
        | some _ =>
          ((none, some CrudError.ErrorUpdateFailed),
           [StoreCall.replaceOne ctx filter i])
        | none =>
          let fetched := c.GetItem ctx "id" (ObjectID.hex id)
          (fetched.1, StoreCall.replaceOne ctx filter i :: fetched.2)
    | _ => ((none, some CrudError.ErrorValueNotStruct), [])
  | _ => ((none, some CrudError.ErrorValueNotPointer), [])

/-- `DeleteItem` (collection.go lines 128-140): takes no caller context at
all; it builds a fresh 3-second deadline over `context.Background()`,
deletes by the identity filter, and collapses any store error to
`ErrorDeleteFailed` (the deleted count is discarded). -/
def DatabaseCollection.DeleteItem (c : DatabaseCollection) (id : ObjectID) :
    Option CrudError × List StoreCall :=
  let ctx := Ctx.withTimeout Ctx.background 3
  let filter : Filter := [("_id", BsonValue.oid id)]
  match (c.collection.DeleteOne ctx filter).2 with
  | some _ => (some CrudError.ErrorDeleteFailed, [StoreCall.deleteOne ctx filter])
  | none => (none, [StoreCall.deleteOne ctx filter])

/-- `DatabaseConfiguration` (storage file): the four URI fields. -/
structure DatabaseConfiguration where
  DatabaseUser : String
  DatabasePassword : String
  DatabaseConnectionUrl : String
  DatabaseName : String

/-- A `*mongo.Client` handle, abstracted to a token. -/
abbrev MongoClient := Nat

/-- A `*mongo.Database` handle: the client it came from and the database
name it was bound to. -/
abbrev DatabaseHandle := MongoClient × String

/-- The driver-level environment `NewStorage` runs against: what
`mongo.NewClient`, `Connect`, `ListCollectionNames` and
`Database.Collection` answer. -/
structure MongoWorld where
  newClient : String → Except String MongoClient
  connect : MongoClient → Ctx → Option String
  listCollectionNames : DatabaseHandle → Ctx → Option (List String)
  collectionHandle : DatabaseHandle → String → MongoCollection

/-- `DatabaseClient`: connection handle, database handle and the collection
registry.  The two handles are `Option` because Go leaves them as nil
pointers until the corresponding bootstrap step assigns them. -/
structure DatabaseClient where
  Instance : Option MongoClient
  Database : Option DatabaseHandle
  Collections : List DatabaseCollection

/-- The connection string `NewStorage` assembles with `fmt.Sprintf`. -/
def mongoUri (c : DatabaseConfiguration) : String :=
  "mongodb+srv://" ++ c.DatabaseUser ++ ":" ++ c.DatabasePassword ++ "@" ++
    c.DatabaseConnectionUrl ++ "/" ++ c.DatabaseName ++
    "?retryWrites=true&w=majority"

/-- `NewStorage` (storage file lines 34-95): build the URI, create the
client, connect under a 10-second deadline, bind the database, then list
the collection names under the same deadline and wrap each as a
`DatabaseCollection`.  Client-creation and connect failures return the
error together with the partially filled client; a listing failure is only
logged, so the loop runs over the nil slice and the client is returned
with an empty registry and no error. -/
def NewStorage (w : MongoWorld) (c : DatabaseConfiguration) :
    DatabaseClient × Option String :=
  let ctx := Ctx.withTimeout Ctx.background 10
  match w.newClient (mongoUri c) with
  | Except.error e =>
    ({ Instance := none, Database := none, Collections := [] }, some e)
  | Except.ok inst =>
    match w.connect inst ctx with
    | some e =>
      ({ Instance := some inst, Database := none, Collections := [] }, some e)
    | none =>
      let db : DatabaseHandle := (inst, c.DatabaseName)
      let names := (w.listCollectionNames db ctx).getD []
      ({ Instance := some inst, Database := some db,
         Collections := names.map (fun n =>
           { name := n, collection := w.collectionHandle db n }) }, none)

/-! ## Derived forms and fixtures -/

/-- The filter the lookup switch constructs; `ItemExists` and `GetItem`
each contain this switch verbatim (collection.go lines 69-76 and 84-91),
and this definition names it for the statements below. -/
def lookupFilter (byKey value : String) : Filter :=
  if byKey = "_id" ∨ byKey = "id" then
    [("_id", BsonValue.oid ((ObjectIDFromHex value).getD NilObjectID))]
  else
    [(byKey, BsonValue.str value)]

/-- `GetItem` unfolded onto `lookupFilter` (definitional). -/
theorem DatabaseCollection.GetItem_eq (c : DatabaseCollection) (ctx : Ctx)
    (byKey value : String) :
    c.GetItem ctx byKey value =
      (let item := c.collection.FindOne ctx (lookupFilter byKey value)
       if item.Err.isSome then
         ((none, some CrudError.ErrorGetFailed),
          [StoreCall.findOne ctx (lookupFilter byKey value)])
       else
         ((some item, none),
          [StoreCall.findOne ctx (lookupFilter byKey value)])) := rfl

/-- `ItemExists` unfolded onto `lookupFilter` (definitional). -/
theorem DatabaseCollection.ItemExists_eq (c : DatabaseCollection) (ctx : Ctx)
    (byKey value : String) :
    c.ItemExists ctx byKey value =
      ((c.collection.FindOne ctx (lookupFilter byKey value)).Err.isNone,
       [StoreCall.findOne ctx (lookupFilter byKey value)]) := rfl

/-- A store that answers every call successfully. -/
def storeOk : MongoCollection :=
  { InsertOne := fun _ _ => none
    FindOne := fun _ _ => { Err := none, doc := "found" }
    ReplaceOne := fun _ _ _ => (1, none)
    DeleteOne := fun _ _ => (1, none) }

/-- A store that answers every call with an error. -/
def storeErr : MongoCollection :=
  { InsertOne := fun _ _ => some "insert refused"
    FindOne := fun _ _ => { Err := some "no documents", doc := "" }
    ReplaceOne := fun _ _ _ => (0, some "replace refused")
    DeleteOne := fun _ _ => (0, some "delete refused") }

/-- A collection over the all-success store. -/
def collOk : DatabaseCollection := { name := "users", collection := storeOk }

/-- A collection over the all-error store. -/
def collErr : DatabaseCollection := { name := "users", collection := storeErr }

/-- A concrete non-nil identifier. -/
def sampleId : ObjectID := [1, 2, 3, 4, 5, 6, 7, 8, 9, 10, 11, 12]

/-! ## Claims -/

/-- Claim C1: with lookup key `"id"` or `"_id"` and a value that is not a
valid hex encoding of a 12-byte identifier, `GetItem` and `ItemExists` do
not fail with a decode error: each builds the filter against the nil
identifier and performs the `FindOne` lookup with that filter, its outcome
determined by that lookup alone. -/
theorem lookup_invalid_hex_uses_nil_id (c : DatabaseCollection) (ctx : Ctx)
    (k v : String) (hk : k = "_id" ∨ k = "id")
    (hv : ObjectIDFromHex v = none) :
    c.GetItem ctx k v =
      (let item := c.collection.FindOne ctx [("_id", BsonValue.oid NilObjectID)]
       if item.Err.isSome then
         ((none, some CrudError.ErrorGetFailed),
          [StoreCall.findOne ctx [("_id", BsonValue.oid NilObjectID)]])
       else
         ((some item, none),
          [StoreCall.findOne ctx [("_id", BsonValue.oid NilObjectID)]])) ∧
    c.ItemExists ctx k v =
      ((c.collection.FindOne ctx [("_id", BsonValue.oid NilObjectID)]).Err.isNone,
       [StoreCall.findOne ctx [("_id", BsonValue.oid NilObjectID)]]) := by
  have hf : lookupFilter k v = [("_id", BsonValue.oid NilObjectID)] := by
    rcases hk with rfl | rfl <;> simp [lookupFilter, hv]
  rw [DatabaseCollection.GetItem_eq, DatabaseCollection.ItemExists_eq, hf]
  exact ⟨rfl, rfl⟩

/-- Witness for C1 at key `"id"` and the malformed value `"zz"`. -/
theorem lookup_invalid_hex_uses_nil_id_witness :
    collOk.GetItem Ctx.background "id" "zz" =
      (let item := collOk.collection.FindOne Ctx.background
         [("_id", BsonValue.oid NilObjectID)]
       if item.Err.isSome then
         ((none, some CrudError.ErrorGetFailed),
          [StoreCall.findOne Ctx.background [("_id", BsonValue.oid NilObjectID)]])
       else
         ((some item, none),
          [StoreCall.findOne Ctx.background
            [("_id", BsonValue.oid NilObjectID)]])) ∧
    collOk.ItemExists Ctx.background "id" "zz" =
      ((collOk.collection.FindOne Ctx.background
          [("_id", BsonValue.oid NilObjectID)]).Err.isNone,
       [StoreCall.findOne Ctx.background [("_id", BsonValue.oid NilObjectID)]]) :=
  lookup_invalid_hex_uses_nil_id collOk Ctx.background "id" "zz"
    (Or.inr rfl) (by decide)

/-- Claim C6: `ItemExists` returns `true` exactly when the `FindOne` result
on the constructed filter carries no error; any error makes it `false`. -/
theorem itemExists_iff_findOne_ok (c : DatabaseCollection) (ctx : Ctx)
    (k v : String) :
    (c.ItemExists ctx k v).1 = true ↔
      (c.collection.FindOne ctx (lookupFilter k v)).Err = none := by
  rw [DatabaseCollection.ItemExists_eq]
  simp [Option.isNone_iff_eq_none]

/-- Claim C7: `GetItem` returns `ErrorGetFailed` and no result exactly when
the `FindOne` result carries an error (the error detail is discarded), and
otherwise returns the result handle with no error. -/
theorem getItem_result_shape (c : DatabaseCollection) (ctx : Ctx)
    (k v : String) :
    c.GetItem ctx k v =
      (if (c.collection.FindOne ctx (lookupFilter k v)).Err.isSome then
         ((none, some CrudError.ErrorGetFailed),
          [StoreCall.findOne ctx (lookupFilter k v)])
       else
         ((some (c.collection.FindOne ctx (lookupFilter k v)), none),
          [StoreCall.findOne ctx (lookupFilter k v)])) :=
  DatabaseCollection.GetItem_eq c ctx k v

/-- Claim C10: `ItemExists` and `GetItem` construct the identical filter
(the traces agree call for call), and against the same store response
`ItemExists` is `true` exactly when `GetItem` returns without error. -/
theorem itemExists_getItem_agree (c : DatabaseCollection) (ctx : Ctx)
    (k v : String) :
    ((c.ItemExists ctx k v).1 = true ↔ (c.GetItem ctx k v).1.2 = none) ∧
    (c.ItemExists ctx k v).2 = (c.GetItem ctx k v).2 := by
  rw [DatabaseCollection.ItemExists_eq, DatabaseCollection.GetItem_eq]
  cases he : (c.collection.FindOne ctx (lookupFilter k v)).Err <;> simp [he]

/-- Claim C2: a pointer to a struct whose `ID` field holds the nil
identifier makes `NewItem` and `UpdateItem` return `ErrorIdBlank` with an
empty store trace: no insert, replace or find is issued. -/
theorem nilId_rejected_before_store (c : DatabaseCollection) (ctx : Ctx)
    (rest : String) :
    c.NewItem ctx (GoValue.ptr (GoValue.structVal NilObjectID rest)) =
      ((none, some CrudError.ErrorIdBlank), []) ∧
    c.UpdateItem ctx (GoValue.ptr (GoValue.structVal NilObjectID rest)) =
      ((none, some CrudError.ErrorIdBlank), []) := by
  constructor <;>
    simp [DatabaseCollection.NewItem, DatabaseCollection.UpdateItem]

/-- Claim C3: a non-pointer argument makes `NewItem` and `UpdateItem`
return `ErrorValueNotPointer` (even when the argument is itself a struct:
the pointer check comes first), a pointer to a non-struct value makes them
return `ErrorValueNotStruct`, and in both cases the store trace is empty. -/
theorem arg_checks_precede_store (c : DatabaseCollection) (ctx : Ctx)
    (v w : GoValue) (hv : ∀ e, v ≠ GoValue.ptr e)
    (hw : ∀ id r, w ≠ GoValue.structVal id r) :
    c.NewItem ctx v = ((none, some CrudError.ErrorValueNotPointer), []) ∧
    c.UpdateItem ctx v = ((none, some CrudError.ErrorValueNotPointer), []) ∧
    c.NewItem ctx (GoValue.ptr w) =
      ((none, some CrudError.ErrorValueNotStruct), []) ∧
    c.UpdateItem ctx (GoValue.ptr w) =
      ((none, some CrudError.ErrorValueNotStruct), []) := by
  have h1 : c.NewItem ctx v = ((none, some CrudError.ErrorValueNotPointer), []) := by
    cases v with
    | ptr e => exact absurd rfl (hv e)
    | structVal id r => rfl
    | prim t => rfl
  have h2 : c.UpdateItem ctx v = ((none, some CrudError.ErrorValueNotPointer), []) := by
    cases v with
    | ptr e => exact absurd rfl (hv e)
    | structVal id r => rfl
    | prim t => rfl
  have h3 : c.NewItem ctx (GoValue.ptr w) =
      ((none, some CrudError.ErrorValueNotStruct), []) := by
    cases w with
    | ptr e => rfl
    | structVal id r => exact absurd rfl (hw id r)
    | prim t => rfl
  have h4 : c.UpdateItem ctx (GoValue.ptr w) =
      ((none, some CrudError.ErrorValueNotStruct), []) := by
    cases w with
    | ptr e => rfl
    | structVal id r => exact absurd rfl (hw id r)
    | prim t => rfl
  exact ⟨h1, h2, h3, h4⟩

/-- Witness for C3: a plain non-pointer value and a pointer to a
non-struct value. -/
theorem arg_checks_precede_store_witness :
    collOk.NewItem Ctx.background (GoValue.prim "int 7") =
      ((none, some CrudError.ErrorValueNotPointer), []) ∧
    collOk.UpdateItem Ctx.background (GoValue.prim "int 7") =
      ((none, some CrudError.ErrorValueNotPointer), []) ∧
    collOk.NewItem Ctx.background (GoValue.ptr (GoValue.prim "string x")) =
      ((none, some CrudError.ErrorValueNotStruct), []) ∧
    collOk.UpdateItem Ctx.background (GoValue.ptr (GoValue.prim "string x")) =
      ((none, some CrudError.ErrorValueNotStruct), []) :=
  arg_checks_precede_store collOk Ctx.background (GoValue.prim "int 7")
    (GoValue.prim "string x") (fun _ h => nomatch h) (fun _ _ h => nomatch h)

/-- Claim C4: under `NewItem`'s preconditions (pointer to struct, non-nil
identifier), a failing insert collapses to exactly `ErrorInsertFailed`
(the store's own error never appears in the return), and a successful
insert re-fetches through `GetItem` keyed `"id"` with the hex-encoded
identifier, returning that fetch's result, with the insert call first in
the trace. -/
theorem newItem_store_paths (c : DatabaseCollection) (ctx : Ctx)
    (id : ObjectID) (rest : String) (hid : id ≠ NilObjectID) :
    (∀ e, c.collection.InsertOne ctx (GoValue.ptr (GoValue.structVal id rest)) = some e →
      c.NewItem ctx (GoValue.ptr (GoValue.structVal id rest)) =
        ((none, some CrudError.ErrorInsertFailed),
         [StoreCall.insertOne ctx (GoValue.ptr (GoValue.structVal id rest))])) ∧
    (c.collection.InsertOne ctx (GoValue.ptr (GoValue.structVal id rest)) = none →
      c.NewItem ctx (GoValue.ptr (GoValue.structVal id rest)) =
        ((c.GetItem ctx "id" (ObjectID.hex id)).1,
         StoreCall.insertOne ctx (GoValue.ptr (GoValue.structVal id rest)) ::
           (c.GetItem ctx "id" (ObjectID.hex id)).2)) := by
  constructor
  · intro e he
    simp [DatabaseCollection.NewItem, hid, he]
  · intro he
    simp [DatabaseCollection.NewItem, hid, he]

/-- Witness for C4: the failing-insert path at a concrete collection. -/
theorem newItem_store_paths_witness :
    collErr.NewItem Ctx.background (GoValue.ptr (GoValue.structVal sampleId "r")) =
      ((none, some CrudError.ErrorInsertFailed),
       [StoreCall.insertOne Ctx.background
          (GoValue.ptr (GoValue.structVal sampleId "r"))]) :=
  (newItem_store_paths collErr Ctx.background sampleId "r" (by decide)).1
    "insert refused" rfl

/-- Claim C5: under `UpdateItem`'s preconditions, the replace is issued
against the exact filter `{_id: id}` built directly from the record's `ID`
field (no hex round-trip through the lookup switch), whatever matched
count the store reports (a no-match replace is not distinguished); a store
error collapses to exactly `ErrorUpdateFailed`, and otherwise the result
is the re-fetch through `GetItem` keyed `"id"` with the hex identifier. -/
theorem updateItem_store_paths (c : DatabaseCollection) (ctx : Ctx)
    (id : ObjectID) (rest : String) (hid : id ≠ NilObjectID) :
    (∀ n e, c.collection.ReplaceOne ctx [("_id", BsonValue.oid id)]
        (GoValue.ptr (GoValue.structVal id rest)) = (n, some e) →
      c.UpdateItem ctx (GoValue.ptr (GoValue.structVal id rest)) =
        ((none, some CrudError.ErrorUpdateFailed),
         [StoreCall.replaceOne ctx [("_id", BsonValue.oid id)]
            (GoValue.ptr (GoValue.structVal id rest))])) ∧
    (∀ n, c.collection.ReplaceOne ctx [("_id", BsonValue.oid id)]
        (GoValue.ptr (GoValue.structVal id rest)) = (n, none) →
      c.UpdateItem ctx (GoValue.ptr (GoValue.structVal id rest)) =
        ((c.GetItem ctx "id" (ObjectID.hex id)).1,
         StoreCall.replaceOne ctx [("_id", BsonValue.oid id)]
             (GoValue.ptr (GoValue.structVal id rest)) ::
           (c.GetItem ctx "id" (ObjectID.hex id)).2)) := by
  constructor
  · intro n e he
    simp [DatabaseCollection.UpdateItem, hid, he]
  · intro n he
    simp [DatabaseCollection.UpdateItem, hid, he]

/-- Witness for C5: the successful-replace path, matched count 1. -/
theorem updateItem_store_paths_witness :
    collOk.UpdateItem Ctx.background (GoValue.ptr (GoValue.structVal sampleId "r")) =
      ((collOk.GetItem Ctx.background "id" (ObjectID.hex sampleId)).1,
       StoreCall.replaceOne Ctx.background [("_id", BsonValue.oid sampleId)]
           (GoValue.ptr (GoValue.structVal sampleId "r")) ::
         (collOk.GetItem Ctx.background "id" (ObjectID.hex sampleId)).2) :=
  (updateItem_store_paths collOk Ctx.background sampleId "r" (by decide)).2 1 rfl

/-- Claim C8: `DeleteItem` takes no caller context; it issues exactly one
`DeleteOne` against the identity filter under the fixed deadline
`withTimeout background 3`, returns `ErrorDeleteFailed` exactly when that
call carries an error, and `none` otherwise — the deleted count (zero on
no match) is discarded. -/
theorem deleteItem_fixed_deadline (c : DatabaseCollection) (id : ObjectID) :
    c.DeleteItem id =
      ((if (c.collection.DeleteOne (Ctx.withTimeout Ctx.background 3)
              [("_id", BsonValue.oid id)]).2.isSome then
          some CrudError.ErrorDeleteFailed
        else none),
       [StoreCall.deleteOne (Ctx.withTimeout Ctx.background 3)
          [("_id", BsonValue.oid id)]]) := by
  unfold DatabaseCollection.DeleteItem
  cases h : (c.collection.DeleteOne (Ctx.withTimeout Ctx.background 3)
      [("_id", BsonValue.oid id)]).2 <;> simp [h]

/-- Claim C9: `NewStorage`'s failure behavior.  A client-creation failure
returns the error with the empty partial client; a connect failure returns
the error with the client handle already set; a collection-name discovery
failure is non-fatal: the client is returned with the database bound, an
empty registry, and no error. -/
theorem newStorage_paths (w : MongoWorld) (c : DatabaseConfiguration)
    (inst : MongoClient) (e : String) :
    (w.newClient (mongoUri c) = Except.error e →
      NewStorage w c =
        ({ Instance := none, Database := none, Collections := [] }, some e)) ∧
    (w.newClient (mongoUri c) = Except.ok inst →
      w.connect inst (Ctx.withTimeout Ctx.background 10) = some e →
      NewStorage w c =
        ({ Instance := some inst, Database := none, Collections := [] }, some e)) ∧
    (w.newClient (mongoUri c) = Except.ok inst →
      w.connect inst (Ctx.withTimeout Ctx.background 10) = none →
      w.listCollectionNames (inst, c.DatabaseName)
          (Ctx.withTimeout Ctx.background 10) = none →
      NewStorage w c =
        ({ Instance := some inst, Database := some (inst, c.DatabaseName),
           Collections := [] }, none)) := by
  refine ⟨?_, ?_, ?_⟩
  · intro h1
    simp [NewStorage, h1]
  · intro h1 h2
    simp [NewStorage, h1, h2]
  · intro h1 h2 h3
    simp [NewStorage, h1, h2, h3]

/-- A driver environment whose collection-name discovery fails. -/
def worldDiscoveryFail : MongoWorld :=
  { newClient := fun _ => Except.ok 7
    connect := fun _ _ => none
    listCollectionNames := fun _ _ => none
    collectionHandle := fun _ _ => storeOk }

/-- A concrete configuration. -/
def sampleConfig : DatabaseConfiguration :=
  { DatabaseUser := "user", DatabasePassword := "pw",
    DatabaseConnectionUrl := "cluster.example.net", DatabaseName := "appdb" }

/-- Witness for C9: discovery failure yields a successful client with an
empty registry. -/
theorem newStorage_paths_witness :
    NewStorage worldDiscoveryFail sampleConfig =
      ({ Instance := some 7, Database := some (7, "appdb"),
         Collections := [] }, none) :=
  (newStorage_paths worldDiscoveryFail sampleConfig 7 "unused").2.2 rfl rfl rfl

end MongoCrud
